import Mathlib

/-!
# Verification of the InfraDon2 post application (src/App/src/App.vue)

Shallow embedding of the script part of `src/App/src/App.vue`: a single-page
application storing "Post" documents in a local PouchDB database that is kept
in live bidirectional sync with a remote CouchDB server.

Modelling conventions:
* A PouchDB database is modelled by its list of stored documents
  (`List Post`); the success path of each library call (`put`, `bulkDocs`,
  `allDocs`, `find`, `remove`, `sync`) is a pure function on that list, and a
  thrown error of an awaited library call is modelled by an explicit `Bool`
  failure flag on the operation (the `catch` branch of the source is then the
  value the operation returns for `true`).
* `Math.random()` draws are explicit rational parameters in `[0, 1)`;
  `new Date().getTime()` / `toISOString()` are explicit `Nat` / `String`
  parameters; library-assigned fresh revision markers are explicit `String`
  parameters.
* JavaScript regular-expression matching (`RegExp(query, "i")` tested against
  a title by the Mango `$regex` selector) is abstracted as a function
  parameter `rmatch : String → String → Bool` (pattern, then text).
* The component state (the `ref`s and module-level variables of the script)
  is an `AppState` record.  Every sync handler ever created is kept in the
  `handlers` history list, newest first, so that "the previous handler was
  cancelled" is expressible; the `syncHandler` variable of the source is the head
  of that list.
* Fire-and-forget follow-ups (the `watch` on the search field, and the
  re-search that `likePost` launches when a search is active) are modelled as
  separate operations applied afterwards (see `Op`).
-/

namespace InfraDon2

/-- The `Post` interface of `src/App/src/App.vue` (lines 14-23).  `type` is
`Post` for application documents, but the database may hold documents of
other types (e.g. the index design document), so it is a plain `String`
here.  `likes` is a JavaScript number holding an integer. -/
structure Post where
  _id : String
  _rev : Option String
  type : String
  title : String
  content : String
  likes : Int
  author : String
  creationDate : String
deriving DecidableEq, Repr

/-- Model of JavaScript `String.prototype.trim` (used as
`searchQuery.value.trim()` at line 155): strip leading whitespace from a
character list. -/
def trimLeftChars (cs : List Char) : List Char :=
  match cs with
  | [] => []
  | c :: t => if c.isWhitespace then trimLeftChars t else c :: t

/-- Model of JavaScript `String.prototype.trim`: strip leading and trailing
whitespace.  (Defined by structural recursion so that it evaluates inside the
kernel, unlike `String.trim`.) -/
def jsTrim (s : String) : String :=
  ⟨(trimLeftChars (trimLeftChars s.data).reverse).reverse⟩

/-- Embeds `postFactory` (lines 29-40).  `nowMs` models `new Date().getTime()`,
`nowIso` models `new Date().toISOString()`, and `random` models the
`Math.random()` draw, a real (here rational) in `[0, 1)`. -/
def postFactory (nowMs : Nat) (nowIso : String) (index : Nat) (random : ℚ) : Post :=
  { _id := "post_" ++ toString nowMs ++ "_" ++ toString index
    _rev := none
    type := "Post"
    title := "Message #" ++ toString index
    content := "Ceci est le contenu du message numéro " ++ toString index ++
      ". C’est une information importante pour votre projet."
    likes := ⌊random * 100⌋
    author := "utilisateur_demo"
    creationDate := nowIso }

/-- The replication mode a PouchDB replication call can request.  The source
only ever calls `PouchDB.sync` (bidirectional); the one-directional modes
exist in the library API and are included so that "the handler is
bidirectional" is a real statement. -/
inductive SyncMode where
  | sync
  | pushOnly
  | pullOnly
deriving DecidableEq, Repr

/-- A replication handler as created by `PouchDB.sync(localDb, remoteDb,
opts)`: its mode, its `live` and `retry` options, and whether it is still
active (`cancel()` clears `active`). -/
structure SyncHandler where
  mode : SyncMode
  live : Bool
  retry : Bool
  active : Bool
deriving DecidableEq, Repr

/-- The component state: the reactive refs `documents`, `isOnline`,
`searchQuery`, `searchStatus` (lines 54-57) and the module variables
`localDb`, `remoteDb` (modelled by their stored documents resp. their
connectedness) and the sync-handler history (head = current `syncHandler`,
line 59). -/
structure AppState where
  documents : List Post
  isOnline : Bool
  searchQuery : String
  searchStatus : String
  localDb : Option (List Post)
  remoteDb : Option Unit
  handlers : List SyncHandler
deriving DecidableEq, Repr

/-- The state after the top-level initialisers of the script run (before
`onMounted` fires `initDatabase`). -/
def initialAppState : AppState :=
  { documents := []
    isOnline := true
    searchQuery := ""
    searchStatus := ""
    localDb := none
    remoteDb := none
    handlers := [] }

/-! ## Success-path models of the PouchDB calls -/

/-- Success path of `localDb.put(doc)`: the stored document with this `_id`
(if any) is replaced, and the library assigns a fresh revision marker. -/
def dbPut (doc : Post) (freshRev : String) (db : List Post) : List Post :=
  db.filter (fun d => decide (d._id ≠ doc._id)) ++ [{ doc with _rev := some freshRev }]

/-- Success path of `localDb.bulkDocs(posts)` (line 121): each document is
stored in order, each with its own fresh revision marker. -/
def bulkDocs (docs : List Post) (freshRevs : Nat → String) (k : Nat) (db : List Post) :
    List Post :=
  match docs with
  | [] => db
  | d :: t => bulkDocs t freshRevs (k + 1) (dbPut d (freshRevs k) db)

/-- The order of `allDocs({descending: true})`: `a` may precede `b` when
`b._id ≤ a._id`. -/
def idDescLe (a b : Post) : Bool := decide (b._id ≤ a._id)

/-- Success path of `localDb.allDocs({include_docs: true, descending: true})`
(line 144): every stored document, in descending `_id` order. -/
def allDocsDescending (db : List Post) : List Post :=
  db.mergeSort idDescLe

/-- Success path of `localDb.remove(id, rev)` (line 218): succeeds only when
a document with this `_id` and this revision marker is stored, and then
deletes the document with this `_id`; otherwise the call throws
(`none`). -/
def dbRemove (id : String) (rev : Option String) (db : List Post) : Option (List Post) :=
  if db.any (fun d => decide (d._id = id ∧ d._rev = rev)) then
    some (db.filter (fun d => decide (d._id ≠ id)))
  else none

/-- The order requested by the `sort` clause of `searchDocuments` (lines
173-177): lexicographic descending on `type`, then `title`, then `likes`.
`mangoLe a b` means `a` may precede `b` in the result. -/
def mangoLe (a b : Post) : Bool :=
  decide (b.type < a.type ∨ (b.type = a.type ∧
    (b.title < a.title ∨ (b.title = a.title ∧ b.likes ≤ a.likes))))

/-- Success path of the `localDb.find` call of `searchDocuments` (lines
166-178): the documents whose `type` is `Post` and whose `title` matches
the query as a case-insensitive regular expression (`rmatch`), sorted by the
requested descending order. -/
def mangoFind (rmatch : String → String → Bool) (query : String) (db : List Post) :
    List Post :=
  (db.filter (fun d => decide (d.type = "Post") && rmatch query d.title)).mergeSort mangoLe

/-! ## The status strings of the source -/

/-- The connection-error message set by the `catch` of `initDatabase`
(line 84). -/
def connectionErrorMsg : String :=
  "Erreur de connexion à la base de données. Vérifiez CouchDB et l’URL."

/-- The search-error message set by the `catch` of `searchDocuments`
(line 188). -/
def searchErrorMsg : String :=
  "Erreur de recherche. Assurez-vous que les index sont bien créés."

/-- The status message set by `fetchDocuments` (line 148). -/
def fetchMsg (n : Nat) : String := toString n ++ " documents affichés (Tout)."

/-- The status message set by `searchDocuments` on success (line 182). -/
def searchFoundMsg (n : Nat) (query : String) : String :=
  "🔍 " ++ toString n ++ " résultat(s) trouvé(s) pour \"" ++ query ++
    "\", trié(s) par Likes."

/-! ## The operations of the component -/

/-- The cancellation step of `startReplication` (line 91): the current
handler (the head of the history), if any, is deactivated. -/
def cancelCurrent (hs : List SyncHandler) : List SyncHandler :=
  match hs with
  | [] => []
  | h :: t => { h with active := false } :: t

/-- The handler created by `PouchDB.sync(localDb, remoteDb, { live: true,
retry: true })` (lines 93-96). -/
def freshSyncHandler : SyncHandler :=
  { mode := SyncMode.sync, live := true, retry := true, active := true }

/-- Embeds `startReplication` (lines 89-110): returns unchanged unless both
databases are connected; otherwise cancels the previous handler (if any) and
installs a fresh live, retrying, bidirectional one. -/
def startReplication (s : AppState) : AppState :=
  match s.localDb, s.remoteDb with
  | some _, some _ => { s with handlers := freshSyncHandler :: cancelCurrent s.handlers }
  | _, _ => s

/-- Embeds `fetchDocuments` (lines 140-150).  `fail` models `allDocs` throwing; the
`catch` only logs, so the state is returned unchanged. -/
def fetchDocuments (fail : Bool) (s : AppState) : AppState :=
  match s.localDb with
  | none => s
  | some db =>
    if fail then s
    else
      let docs := (allDocsDescending db).filter (fun d => decide (d.type = "Post"))
      { s with documents := docs, searchStatus := fetchMsg docs.length }

/-- Embeds `searchDocuments` (lines 153-190).  A query that is empty after
trimming falls back to `fetchDocuments` (with its own failure flag
`fetchFail`); `findFail` models the `localDb.find` call throwing, in which
case the `catch` sets the fixed error message. -/
def searchDocuments (rmatch : String → String → Bool) (fetchFail findFail : Bool)
    (s : AppState) : AppState :=
  match s.localDb with
  | none => s
  | some db =>
    let query := jsTrim s.searchQuery
    if query = "" then fetchDocuments fetchFail s
    else if findFail then { s with searchStatus := searchErrorMsg }
    else
      let docs := mangoFind rmatch query db
      { s with documents := docs, searchStatus := searchFoundMsg docs.length query }

/-- The 20 posts built by the loop of `generateMassData` (lines 115-119);
each call of `postFactory i` reads the clock and `Math.random()` afresh. -/
def massPosts (nowMs : Nat → Nat) (nowIso : Nat → String) (rnds : Nat → ℚ) : List Post :=
  (List.range 20).map (fun k => postFactory (nowMs (k + 1)) (nowIso (k + 1)) (k + 1) (rnds (k + 1)))

/-- Embeds `generateMassData` (lines 113-127).  `fail` models `bulkDocs` throwing
(the `catch` only logs); on success, if no search is active the list is
refreshed. -/
def generateMassData (nowMs : Nat → Nat) (nowIso : Nat → String) (rnds : Nat → ℚ)
    (freshRevs : Nat → String) (fail fetchFail : Bool) (s : AppState) : AppState :=
  match s.localDb with
  | none => s
  | some db =>
    if fail then s
    else
      let s1 := { s with localDb := some (bulkDocs (massPosts nowMs nowIso rnds) freshRevs 0 db) }
      if s1.searchQuery = "" then fetchDocuments fetchFail s1 else s1

/-- Embeds `createNewPost` (lines 130-137): puts
`postFactory(Math.floor(Math.random() * 1000) + 1)`; `idxRandom` is the draw
for the index, `likeRandom` the draw `postFactory` makes for `likes`.
`fail` models `put` throwing (the `catch` only logs). -/
def createNewPost (nowMs : Nat) (nowIso : String) (idxRandom likeRandom : ℚ)
    (freshRev : String) (fail fetchFail : Bool) (s : AppState) : AppState :=
  match s.localDb with
  | none => s
  | some db =>
    if fail then s
    else
      let post := postFactory nowMs nowIso ((⌊idxRandom * 1000⌋).toNat + 1) likeRandom
      let s1 := { s with localDb := some (dbPut post freshRev db) }
      if s1.searchQuery = "" then fetchDocuments fetchFail s1 else s1

/-- The updated document built by `likePost` (line 197):
`{ ...post, likes: post.likes + 1 }`. -/
def likeUpdated (post : Post) : Post := { post with likes := post.likes + 1 }

/-- The optimistic list update of `likePost` (lines 202-203): replace the
entry at `findIndex(d => d._id === post._id)`, if any, by `updated`. -/
def optimisticReplace (post updated : Post) (docs : List Post) : List Post :=
  match docs.findIdx? (fun d => decide (d._id = post._id)) with
  | some i => docs.set i updated
  | none => docs

/-- Embeds `likePost` (lines 193-211).  `fail` models `put` throwing (the `catch`
only logs, so nothing is updated).  The re-search it launches when a search
is active (lines 206-208, not awaited) is modelled as a subsequent
`Op.search`; see `likePostTriggersSearch`. -/
def likePost (post : Post) (freshRev : String) (fail : Bool) (s : AppState) : AppState :=
  match s.localDb with
  | none => s
  | some db =>
    if fail then s
    else
      { s with localDb := some (dbPut (likeUpdated post) freshRev db)
               documents := optimisticReplace post (likeUpdated post) s.documents }

/-- Whether `likePost` re-runs `searchDocuments` afterwards: iff a search is
in progress (line 206 compares `searchQuery.value` with the empty string). -/
def likePostTriggersSearch (s : AppState) : Bool := s.searchQuery != ""

/-- Embeds `deletePost` (lines 214-222): `localDb.remove(post._id, post._rev)`, and
on success the displayed list keeps exactly the entries with a different
`_id`.  `fail` models any other thrown error (the `catch` only logs). -/
def deletePost (post : Post) (fail : Bool) (s : AppState) : AppState :=
  match s.localDb with
  | none => s
  | some db =>
    if fail then s
    else
      match dbRemove post._id post._rev db with
      | none => s
      | some db2 =>
        { s with localDb := some db2
                 documents := s.documents.filter (fun d => decide (d._id ≠ post._id)) }

/-- Embeds `toggleOffline` (lines 225-236): flips `isOnline`; back online it
restarts replication, offline it cancels the current handler (the variable
itself is not cleared by the source). -/
def toggleOffline (s : AppState) : AppState :=
  let s1 := { s with isOnline := !s.isOnline }
  if s1.isOnline then startReplication s1
  else { s1 with handlers := cancelCurrent s1.handlers }

/-- Embeds `initDatabase` (lines 62-86).  `localContent` is the persisted content
the local database opens with; `indexFail` models `createIndex` throwing
(the `catch` sets the fixed connection-error message); on success replication
is started and the list fetched. -/
def initDatabase (localContent : List Post) (indexFail fetchFail : Bool)
    (s : AppState) : AppState :=
  let s1 := { s with remoteDb := some (), localDb := some localContent }
  if indexFail then { s1 with searchStatus := connectionErrorMsg }
  else fetchDocuments fetchFail (startReplication s1)

/-- The user typing in the search field (the `v-model` of line 275); the
`watch` of line 239 then fires `searchDocuments`, modelled as a subsequent
`Op.search`. -/
def setSearchQuery (q : String) (s : AppState) : AppState :=
  { s with searchQuery := q }

/-! ## The operations as a step type -/

/-- One user-visible step of the component, with all its oracle inputs
(clock readings, random draws, fresh revision markers, failure flags). -/
inductive Op where
  | init (localContent : List Post) (indexFail fetchFail : Bool)
  | massData (nowMs : Nat → Nat) (nowIso : Nat → String) (rnds : Nat → ℚ)
      (freshRevs : Nat → String) (fail fetchFail : Bool)
  | create (nowMs : Nat) (nowIso : String) (idxRandom likeRandom : ℚ)
      (freshRev : String) (fail fetchFail : Bool)
  | fetch (fail : Bool)
  | search (fetchFail findFail : Bool)
  | like (post : Post) (freshRev : String) (fail : Bool)
  | erase (post : Post) (fail : Bool)
  | replicate
  | toggle
  | setQuery (q : String)

/-- Apply one step. -/
def applyOp (rmatch : String → String → Bool) (o : Op) (s : AppState) : AppState :=
  match o with
  | .init localContent indexFail fetchFail => initDatabase localContent indexFail fetchFail s
  | .massData nowMs nowIso rnds freshRevs fail fetchFail =>
      generateMassData nowMs nowIso rnds freshRevs fail fetchFail s
  | .create nowMs nowIso idxRandom likeRandom freshRev fail fetchFail =>
      createNewPost nowMs nowIso idxRandom likeRandom freshRev fail fetchFail s
  | .fetch fail => fetchDocuments fail s
  | .search fetchFail findFail => searchDocuments rmatch fetchFail findFail s
  | .like post freshRev fail => likePost post freshRev fail s
  | .erase post fail => deletePost post fail s
  | .replicate => startReplication s
  | .toggle => toggleOffline s
  | .setQuery q => setSearchQuery q s

/-- A post whose like counter is a non-negative integer. -/
def PostOk (p : Post) : Prop := 0 ≤ p.likes

/-- Every document in the list has a non-negative like counter. -/
def DocsOk (l : List Post) : Prop := ∀ d ∈ l, PostOk d

/-- Every displayed and every locally stored document has a non-negative
like counter. -/
def StateOk (s : AppState) : Prop :=
  DocsOk s.documents ∧ ∀ db, s.localDb = some db → DocsOk db

/-- The environment assumptions under which a step runs in the real
application: `Math.random()` draws lie in `[0, 1)`, the persisted content a
database opens with was written by this application, and the post a like
button hands to `likePost` is a displayed one. -/
def OpValid (o : Op) (s : AppState) : Prop :=
  match o with
  | .init localContent _ _ => DocsOk localContent
  | .massData _ _ rnds _ _ _ => ∀ k, 0 ≤ rnds k ∧ rnds k < 1
  | .create _ _ _ likeRandom _ _ _ => 0 ≤ likeRandom ∧ likeRandom < 1
  | .like post _ _ => post ∈ s.documents
  | _ => True

/-- Only the current (most recently created) sync handler may still be
active: every older one has been cancelled. -/
def OnlyHeadActive (hs : List SyncHandler) : Prop :=
  ∀ h ∈ hs.tail, h.active = false

/-- Every sync handler ever created is a bidirectional (`PouchDB.sync`)
handler with `live: true` and `retry: true`. -/
def AllBidirLiveRetry (hs : List SyncHandler) : Prop :=
  ∀ h ∈ hs, h.mode = SyncMode.sync ∧ h.live = true ∧ h.retry = true

/-! ## Sample inputs used to instantiate the theorems -/

/-- A concrete post used to instantiate the theorems. -/
def samplePost : Post :=
  { _id := "post_1700000000000_1", _rev := some "1-abc", type := "Post",
    title := "Message #1", content := "contenu", likes := 5,
    author := "utilisateur_demo", creationDate := "2024-01-01T00:00:00.000Z" }

/-- A second concrete post. -/
def samplePost2 : Post :=
  { _id := "post_1700000000000_2", _rev := some "1-def", type := "Post",
    title := "Message #2", content := "contenu", likes := 7,
    author := "utilisateur_demo", creationDate := "2024-01-01T00:00:00.000Z" }

/-- A concrete state with a search in progress and two stored posts, the
first of which is displayed. -/
def sampleState : AppState :=
  { documents := [samplePost], isOnline := true, searchQuery := "Message",
    searchStatus := "", localDb := some [samplePost, samplePost2],
    remoteDb := some (), handlers := [] }

/-- The sample state with an empty search field. -/
def sampleStateEmptyQuery : AppState :=
  { documents := [samplePost], isOnline := true, searchQuery := "",
    searchStatus := "", localDb := some [samplePost, samplePost2],
    remoteDb := some (), handlers := [] }

/-- A concrete stand-in for the abstract regular-expression matcher:
substring-at-start match (kernel-computable). -/
def sampleRmatch (pat text : String) : Bool := decide (pat.data <+: text.data)

/-! ## Claim theorems -/

/-- C10: before `initDatabase` has assigned the local database handle
(`localDb` is `none`), every operation — `generateMassData`, `createNewPost`,
`fetchDocuments`, `searchDocuments`, `likePost`, `deletePost`,
`startReplication` — returns immediately with the state unchanged: no error,
no change to the displayed list, the status string, or any database. -/
theorem c10_guard_before_init (rmatch : String → String → Bool)
    (nowMsF : Nat → Nat) (nowIsoF : Nat → String) (rndsF : Nat → ℚ)
    (frevsF : Nat → String) (nowMs : Nat) (nowIso : String) (r1 r2 : ℚ)
    (frev : String) (post : Post) (fail fetchFail findFail : Bool)
    (s : AppState) (h : s.localDb = none) :
    generateMassData nowMsF nowIsoF rndsF frevsF fail fetchFail s = s ∧
    createNewPost nowMs nowIso r1 r2 frev fail fetchFail s = s ∧
    fetchDocuments fail s = s ∧
    searchDocuments rmatch fetchFail findFail s = s ∧
    likePost post frev fail s = s ∧
    deletePost post fail s = s ∧
    startReplication s = s := by
  refine ⟨?_, ?_, ?_, ?_, ?_, ?_, ?_⟩ <;>
    simp [generateMassData, createNewPost, fetchDocuments, searchDocuments,
      likePost, deletePost, startReplication, h]

/-- Witness for C10 at a concrete pre-initialisation state. -/
theorem c10_guard_before_init_witness :
    initialAppState.localDb = none ∧
    (generateMassData (fun _ => 0) (fun _ => "") (fun _ => 0) (fun _ => "")
        false false initialAppState = initialAppState ∧
      createNewPost 0 "" 0 0 "" false false initialAppState = initialAppState ∧
      fetchDocuments false initialAppState = initialAppState ∧
      searchDocuments sampleRmatch false false initialAppState = initialAppState ∧
      likePost samplePost "2-x" false initialAppState = initialAppState ∧
      deletePost samplePost false initialAppState = initialAppState ∧
      startReplication initialAppState = initialAppState) :=
  ⟨rfl, c10_guard_before_init sampleRmatch (fun _ => 0) (fun _ => "") (fun _ => 0)
    (fun _ => "") 0 "" 0 0 "" samplePost false false false initialAppState rfl⟩

/-- C6: every operation catches the errors of its library calls and never
propagates an exception (each model function below is total); on a failure
the only user-visible effect is a static status string — the fixed
connection-error message for `initDatabase`, the fixed search-error message
for `searchDocuments` — and a failure of any other operation leaves the
state unchanged (it is only logged). -/
theorem c6_errors_caught (rmatch : String → String → Bool)
    (localContent : List Post) (nowMsF : Nat → Nat) (nowIsoF : Nat → String)
    (rndsF : Nat → ℚ) (frevsF : Nat → String) (nowMs : Nat) (nowIso : String)
    (r1 r2 : ℚ) (frev : String) (post : Post) (fetchFail : Bool)
    (s : AppState) (db : List Post) (hdb : s.localDb = some db)
    (hq : jsTrim s.searchQuery ≠ "") :
    (initDatabase localContent true fetchFail s).documents = s.documents ∧
    (initDatabase localContent true fetchFail s).searchStatus = connectionErrorMsg ∧
    searchDocuments rmatch fetchFail true s = { s with searchStatus := searchErrorMsg } ∧
    generateMassData nowMsF nowIsoF rndsF frevsF true fetchFail s = s ∧
    createNewPost nowMs nowIso r1 r2 frev true fetchFail s = s ∧
    fetchDocuments true s = s ∧
    likePost post frev true s = s ∧
    deletePost post true s = s := by
  refine ⟨?_, ?_, ?_, ?_, ?_, ?_, ?_, ?_⟩ <;>
    simp [initDatabase, searchDocuments, generateMassData, createNewPost,
      fetchDocuments, likePost, deletePost, hdb, hq]

/-- Witness for C6 at a concrete state with a search in progress. -/
theorem c6_errors_caught_witness :
    sampleState.localDb = some [samplePost, samplePost2] ∧
    jsTrim sampleState.searchQuery ≠ "" ∧
    ((initDatabase [] true false sampleState).documents = sampleState.documents ∧
      (initDatabase [] true false sampleState).searchStatus = connectionErrorMsg ∧
      searchDocuments sampleRmatch false true sampleState =
        { sampleState with searchStatus := searchErrorMsg } ∧
      generateMassData (fun _ => 0) (fun _ => "") (fun _ => 0) (fun _ => "")
        true false sampleState = sampleState ∧
      createNewPost 0 "" 0 0 "2-x" true false sampleState = sampleState ∧
      fetchDocuments true sampleState = sampleState ∧
      likePost samplePost "2-x" true sampleState = sampleState ∧
      deletePost samplePost true sampleState = sampleState) :=
  ⟨rfl, by decide,
    c6_errors_caught sampleRmatch [] (fun _ => 0) (fun _ => "") (fun _ => 0)
      (fun _ => "") 0 "" 0 0 "2-x" samplePost false sampleState
      [samplePost, samplePost2] rfl (by decide)⟩

/-- C5: a successful `deletePost p` removes from the database the document
with identifier `p._id` (the call carries the revision marker of `p`, and success
requires a stored document with that `_id` and that revision), and removes
from the displayed list exactly the entries whose `_id` equals `p._id`;
every displayed document with a different `_id` remains, unchanged and in
order. -/
theorem c5_delete_frame (post : Post) (s : AppState) (db : List Post)
    (hdb : s.localDb = some db)
    (hsucc : db.any (fun d => decide (d._id = post._id ∧ d._rev = post._rev)) = true)
    (d : Post) :
    (deletePost post false s).localDb =
      some (db.filter (fun x => decide (x._id ≠ post._id))) ∧
    (deletePost post false s).documents =
      s.documents.filter (fun x => decide (x._id ≠ post._id)) ∧
    (d ∈ (deletePost post false s).documents ↔ d ∈ s.documents ∧ d._id ≠ post._id) ∧
    (d ∈ db.filter (fun x => decide (x._id ≠ post._id)) ↔ d ∈ db ∧ d._id ≠ post._id) := by
  have hsucc2 : ∃ x ∈ db, x._id = post._id ∧ x._rev = post._rev := by simpa using hsucc
  refine ⟨?_, ?_, ?_, ?_⟩ <;>
    simp [deletePost, dbRemove, hdb, hsucc2, List.mem_filter]

/-- Witness for C5: deleting the first sample post from the sample state. -/
theorem c5_delete_frame_witness :
    sampleState.localDb = some [samplePost, samplePost2] ∧
    ([samplePost, samplePost2].any
      (fun d => decide (d._id = samplePost._id ∧ d._rev = samplePost._rev)) = true) ∧
    ((deletePost samplePost false sampleState).localDb =
      some ([samplePost, samplePost2].filter (fun x => decide (x._id ≠ samplePost._id))) ∧
    (deletePost samplePost false sampleState).documents =
      sampleState.documents.filter (fun x => decide (x._id ≠ samplePost._id)) ∧
    (samplePost2 ∈ (deletePost samplePost false sampleState).documents ↔
      samplePost2 ∈ sampleState.documents ∧ samplePost2._id ≠ samplePost._id) ∧
    (samplePost2 ∈ [samplePost, samplePost2].filter (fun x => decide (x._id ≠ samplePost._id)) ↔
      samplePost2 ∈ [samplePost, samplePost2] ∧ samplePost2._id ≠ samplePost._id)) :=
  ⟨rfl, by decide,
    c5_delete_frame samplePost sampleState [samplePost, samplePost2] rfl
      (by decide) samplePost2⟩

/-! ## Order facts about the two sort comparators -/

theorem idDescLe_trans (a b c : Post) (h1 : idDescLe a b = true)
    (h2 : idDescLe b c = true) : idDescLe a c = true := by
  simp only [idDescLe, decide_eq_true_eq] at *
  exact le_trans h2 h1

theorem idDescLe_total (a b : Post) : (idDescLe a b || idDescLe b a) = true := by
  simp only [idDescLe, Bool.or_eq_true, decide_eq_true_eq]
  exact le_total b._id a._id

theorem mangoLe_trans (a b c : Post) (h1 : mangoLe a b = true)
    (h2 : mangoLe b c = true) : mangoLe a c = true := by
  simp only [mangoLe, decide_eq_true_eq] at *
  rcases h1 with h1 | ⟨e1, h1⟩
  · rcases h2 with h2 | ⟨e2, _⟩
    · exact Or.inl (lt_trans h2 h1)
    · exact Or.inl (lt_of_le_of_lt (le_of_eq e2) h1)
  · rcases h2 with h2 | ⟨e2, h2⟩
    · exact Or.inl (lt_of_lt_of_le h2 (le_of_eq e1))
    · refine Or.inr ⟨e2.trans e1, ?_⟩
      rcases h1 with h1 | ⟨f1, l1⟩
      · rcases h2 with h2 | ⟨f2, _⟩
        · exact Or.inl (lt_trans h2 h1)
        · exact Or.inl (lt_of_le_of_lt (le_of_eq f2) h1)
      · rcases h2 with h2 | ⟨f2, l2⟩
        · exact Or.inl (lt_of_lt_of_le h2 (le_of_eq f1))
        · exact Or.inr ⟨f2.trans f1, le_trans l2 l1⟩

theorem mangoLe_total (a b : Post) : (mangoLe a b || mangoLe b a) = true := by
  simp only [mangoLe, Bool.or_eq_true, decide_eq_true_eq]
  rcases lt_trichotomy a.type b.type with h | h | h
  · exact Or.inr (Or.inl h)
  · rcases lt_trichotomy a.title b.title with h' | h' | h'
    · exact Or.inr (Or.inr ⟨h, Or.inl h'⟩)
    · rcases le_total b.likes a.likes with hl | hl
      · exact Or.inl (Or.inr ⟨h.symm, Or.inr ⟨h'.symm, hl⟩⟩)
      · exact Or.inr (Or.inr ⟨h, Or.inr ⟨h', hl⟩⟩)
    · exact Or.inl (Or.inr ⟨h.symm, Or.inl h'⟩)
  · exact Or.inl (Or.inl h)

/-- C4: the list operation shows exactly the stored documents whose type tag
is `Post`, in descending identifier order: `fetchDocuments` filters the
descending `allDocs` result by comparing `doc.type` with `Post`, and `searchDocuments`
with a query that is empty after trimming falls back to `fetchDocuments`, so
an empty search displays all posts. -/
theorem c4_fetch_lists_posts (rmatch : String → String → Bool)
    (fetchFail findFail : Bool) (s : AppState) (db : List Post)
    (hdb : s.localDb = some db) (d : Post) :
    (d ∈ (fetchDocuments false s).documents ↔ d ∈ db ∧ d.type = "Post") ∧
    List.Pairwise (fun a b : Post => b._id ≤ a._id) (fetchDocuments false s).documents ∧
    (jsTrim s.searchQuery = "" →
      searchDocuments rmatch fetchFail findFail s = fetchDocuments fetchFail s) := by
  have e : (fetchDocuments false s).documents =
      (allDocsDescending db).filter (fun x => decide (x.type = "Post")) := by
    simp [fetchDocuments, hdb]
  refine ⟨?_, ?_, ?_⟩
  · rw [e]
    simp [allDocsDescending, List.mem_filter, List.mem_mergeSort]
  · rw [e]
    refine List.Pairwise.filter _ (List.Pairwise.imp ?_
      (List.sorted_mergeSort idDescLe_trans idDescLe_total db))
    intro a b h
    simpa [idDescLe] using h
  · intro hq
    simp [searchDocuments, hdb, hq]

/-- Witness for C4 at a concrete state with an empty search field. -/
theorem c4_fetch_lists_posts_witness :
    sampleStateEmptyQuery.localDb = some [samplePost, samplePost2] ∧
    jsTrim sampleStateEmptyQuery.searchQuery = "" ∧
    ((samplePost ∈ (fetchDocuments false sampleStateEmptyQuery).documents ↔
        samplePost ∈ [samplePost, samplePost2] ∧ samplePost.type = "Post") ∧
      List.Pairwise (fun a b : Post => b._id ≤ a._id)
        (fetchDocuments false sampleStateEmptyQuery).documents ∧
      searchDocuments sampleRmatch false false sampleStateEmptyQuery =
        fetchDocuments false sampleStateEmptyQuery) :=
  ⟨rfl, by decide,
    (c4_fetch_lists_posts sampleRmatch false false sampleStateEmptyQuery
        [samplePost, samplePost2] rfl samplePost).1,
    (c4_fetch_lists_posts sampleRmatch false false sampleStateEmptyQuery
        [samplePost, samplePost2] rfl samplePost).2.1,
    (c4_fetch_lists_posts sampleRmatch false false sampleStateEmptyQuery
        [samplePost, samplePost2] rfl samplePost).2.2 (by decide)⟩

/-- C3: for a search query that is non-empty after trimming, a successful
`searchDocuments` sets the displayed list to exactly those stored documents
whose `type` is `Post` and whose `title` matches the trimmed query as a
case-insensitive regular expression (the abstract matcher `rmatch`);
documents of other types or with non-matching titles never appear. -/
theorem c3_search_filters (rmatch : String → String → Bool) (fetchFail : Bool)
    (s : AppState) (db : List Post) (hdb : s.localDb = some db)
    (hq : jsTrim s.searchQuery ≠ "") (d : Post) :
    d ∈ (searchDocuments rmatch fetchFail false s).documents ↔
      d ∈ db ∧ d.type = "Post" ∧ rmatch (jsTrim s.searchQuery) d.title = true := by
  simp [searchDocuments, hdb, hq, mangoFind, List.mem_mergeSort, List.mem_filter,
    and_assoc]

/-- Witness for C3: searching "Message" in the sample state. -/
theorem c3_search_filters_witness :
    sampleState.localDb = some [samplePost, samplePost2] ∧
    jsTrim sampleState.searchQuery ≠ "" ∧
    (samplePost ∈ (searchDocuments sampleRmatch false false sampleState).documents ↔
      samplePost ∈ [samplePost, samplePost2] ∧ samplePost.type = "Post" ∧
        sampleRmatch (jsTrim sampleState.searchQuery) samplePost.title = true) :=
  ⟨rfl, by decide,
    c3_search_filters sampleRmatch false sampleState [samplePost, samplePost2]
      rfl (by decide) samplePost⟩

/-- C9: the sort order requested by `searchDocuments` is the lexicographic
descending order on `(type, title, likes)`: the result is sorted by
`mangoLe`; for two posts of equal type with distinct titles, `mangoLe` is
decided by the titles alone (the like counters are ignored); the like
counter decides only between posts of equal type and equal title; and every
result document has type `Post` — so among results, title alone fixes the
relative order of distinct titles, even though the displayed status string
describes the results as sorted by likes. -/
theorem c9_sort_order (rmatch : String → String → Bool) (fetchFail : Bool)
    (s : AppState) (db : List Post) (hdb : s.localDb = some db)
    (hq : jsTrim s.searchQuery ≠ "") (a b d : Post) (hab : a.type = b.type) :
    List.Pairwise (fun x y : Post => mangoLe x y = true)
      (searchDocuments rmatch fetchFail false s).documents ∧
    (a.title ≠ b.title → (mangoLe a b = true ↔ b.title < a.title)) ∧
    (a.title = b.title → (mangoLe a b = true ↔ b.likes ≤ a.likes)) ∧
    (d ∈ (searchDocuments rmatch fetchFail false s).documents → d.type = "Post") := by
  have e : (searchDocuments rmatch fetchFail false s).documents =
      (db.filter (fun x => decide (x.type = "Post") &&
        rmatch (jsTrim s.searchQuery) x.title)).mergeSort mangoLe := by
    simp [searchDocuments, hdb, hq, mangoFind]
  refine ⟨?_, ?_, ?_, ?_⟩
  · rw [e]
    exact List.sorted_mergeSort mangoLe_trans mangoLe_total _
  · intro hne
    simp only [mangoLe, decide_eq_true_eq]
    constructor
    · rintro (h | ⟨-, h | ⟨f, -⟩⟩)
      · rw [hab] at h
        exact absurd h (lt_irrefl _)
      · exact h
      · exact absurd f.symm hne
    · intro h
      exact Or.inr ⟨hab.symm, Or.inl h⟩
  · intro he
    simp only [mangoLe, decide_eq_true_eq]
    constructor
    · rintro (h | ⟨-, h | ⟨-, h⟩⟩)
      · rw [hab] at h
        exact absurd h (lt_irrefl _)
      · rw [he] at h
        exact absurd h (lt_irrefl _)
      · exact h
    · intro h
      exact Or.inr ⟨hab.symm, Or.inr ⟨he.symm, h⟩⟩
  · intro hd
    rw [e] at hd
    simp only [List.mem_mergeSort, List.mem_filter, Bool.and_eq_true,
      decide_eq_true_eq] at hd
    exact hd.2.1

/-- Witness for C9: the two sample posts share the type tag and have
distinct titles. -/
theorem c9_sort_order_witness :
    sampleState.localDb = some [samplePost, samplePost2] ∧
    jsTrim sampleState.searchQuery ≠ "" ∧
    samplePost.type = samplePost2.type ∧
    (List.Pairwise (fun x y : Post => mangoLe x y = true)
        (searchDocuments sampleRmatch false false sampleState).documents ∧
      (samplePost.title ≠ samplePost2.title →
        (mangoLe samplePost samplePost2 = true ↔ samplePost2.title < samplePost.title)) ∧
      (samplePost.title = samplePost2.title →
        (mangoLe samplePost samplePost2 = true ↔ samplePost2.likes ≤ samplePost.likes)) ∧
      (samplePost ∈ (searchDocuments sampleRmatch false false sampleState).documents →
        samplePost.type = "Post")) :=
  ⟨rfl, by decide, rfl,
    c9_sort_order sampleRmatch false sampleState [samplePost, samplePost2] rfl
      (by decide) samplePost samplePost2 samplePost rfl⟩

/-- When the displayed identifiers are pairwise distinct, replacing the entry
at `findIndex(d => d._id === post._id)` is the same as mapping the update
over the list: the (unique) entry carrying the identifier of `post` becomes `updated`
and every other entry is untouched. -/
theorem optimisticReplace_eq_map (post updated : Post) (l : List Post)
    (hnd : (l.map Post._id).Nodup) :
    optimisticReplace post updated l =
      l.map (fun d => if d._id = post._id then updated else d) := by
  induction l with
  | nil => rfl
  | cons x t ih =>
    rw [List.map_cons, List.nodup_cons] at hnd
    obtain ⟨hx, ht⟩ := hnd
    by_cases hxp : x._id = post._id
    · have hmap : t.map (fun d => if d._id = post._id then updated else d) = t := by
        have hall : ∀ d ∈ t, (if d._id = post._id then updated else d) = d := by
          intro d hd
          rw [if_neg]
          intro hdp
          exact hx (hxp ▸ hdp ▸ List.mem_map_of_mem Post._id hd)
        rw [List.map_congr_left hall]
        simp
      simp [optimisticReplace, List.findIdx?_cons, hxp, hmap]
    · have hstep : List.findIdx? (fun d => decide (d._id = post._id)) (x :: t) =
          (List.findIdx? (fun d => decide (d._id = post._id)) t).map (fun i => i + 1) := by
        rw [List.findIdx?_cons, if_neg (by simp [hxp])]
        exact List.findIdx?_succ
      cases hfi : List.findIdx? (fun d => decide (d._id = post._id)) t with
      | none =>
        have hmap : t.map (fun d => if d._id = post._id then updated else d) = t := by
          have hnone := List.findIdx?_eq_none_iff.mp hfi
          have hall : ∀ d ∈ t, (if d._id = post._id then updated else d) = d := by
            intro d hd
            rw [if_neg]
            simpa using hnone d hd
          rw [List.map_congr_left hall]
          simp
        simp [optimisticReplace, hstep, hfi, hxp, hmap]
      | some j =>
        have ih2 := ih ht
        simp only [optimisticReplace, hfi] at ih2
        have hset : (x :: t).set (j + 1) updated = x :: t.set j updated := rfl
        simp [optimisticReplace, hstep, hfi, hxp, hset, ih2]

/-- C2: `likePost p` writes (puts) a document whose `likes` equals
`p.likes + 1` and whose every other field — `_id`, `type`, `title`,
`content`, `author`, `creationDate` — is unchanged from `p` (only the
revision marker is re-assigned by the library); and in the displayed list
the entry with that `_id`, if present, is replaced by exactly that updated
document, all other entries staying unchanged. -/
theorem c2_like_frame (post : Post) (freshRev : String) (s : AppState)
    (db : List Post) (hdb : s.localDb = some db)
    (hnd : (s.documents.map Post._id).Nodup) (d : Post) :
    (likePost post freshRev false s).localDb =
      some (dbPut (likeUpdated post) freshRev db) ∧
    { likeUpdated post with _rev := some freshRev } ∈
      dbPut (likeUpdated post) freshRev db ∧
    (d ∈ dbPut (likeUpdated post) freshRev db → d._id = post._id →
      d = { likeUpdated post with _rev := some freshRev }) ∧
    ((likeUpdated post).likes = post.likes + 1 ∧ (likeUpdated post)._id = post._id ∧
      (likeUpdated post).type = post.type ∧ (likeUpdated post).title = post.title ∧
      (likeUpdated post).content = post.content ∧
      (likeUpdated post).author = post.author ∧
      (likeUpdated post).creationDate = post.creationDate) ∧
    (likePost post freshRev false s).documents =
      s.documents.map (fun x => if x._id = post._id then likeUpdated post else x) := by
  refine ⟨?_, ?_, ?_, ?_, ?_⟩
  · simp [likePost, hdb]
  · simp [dbPut]
  · intro hmem hid
    rcases List.mem_append.mp hmem with hmem | hmem
    · have := (List.mem_filter.mp hmem).2
      simp only [likeUpdated, decide_eq_true_eq] at this
      exact absurd hid this
    · simpa using hmem
  · exact ⟨rfl, rfl, rfl, rfl, rfl, rfl, rfl⟩
  · have e : (likePost post freshRev false s).documents =
        optimisticReplace post (likeUpdated post) s.documents := by
      simp [likePost, hdb]
    rw [e]
    exact optimisticReplace_eq_map post (likeUpdated post) s.documents hnd

/-- Witness for C2: liking the displayed sample post. -/
theorem c2_like_frame_witness :
    sampleState.localDb = some [samplePost, samplePost2] ∧
    (sampleState.documents.map Post._id).Nodup ∧
    ((likePost samplePost "2-x" false sampleState).localDb =
      some (dbPut (likeUpdated samplePost) "2-x" [samplePost, samplePost2]) ∧
    { likeUpdated samplePost with _rev := some "2-x" } ∈
      dbPut (likeUpdated samplePost) "2-x" [samplePost, samplePost2] ∧
    ({ likeUpdated samplePost with _rev := some "2-x" } ∈
        dbPut (likeUpdated samplePost) "2-x" [samplePost, samplePost2] →
      { likeUpdated samplePost with _rev := some "2-x" }._id = samplePost._id →
      { likeUpdated samplePost with _rev := some "2-x" } =
        { likeUpdated samplePost with _rev := some "2-x" }) ∧
    ((likeUpdated samplePost).likes = samplePost.likes + 1 ∧
      (likeUpdated samplePost)._id = samplePost._id ∧
      (likeUpdated samplePost).type = samplePost.type ∧
      (likeUpdated samplePost).title = samplePost.title ∧
      (likeUpdated samplePost).content = samplePost.content ∧
      (likeUpdated samplePost).author = samplePost.author ∧
      (likeUpdated samplePost).creationDate = samplePost.creationDate) ∧
    (likePost samplePost "2-x" false sampleState).documents =
      sampleState.documents.map
        (fun x => if x._id = samplePost._id then likeUpdated samplePost else x)) :=
  ⟨rfl, by decide,
    c2_like_frame samplePost "2-x" sampleState [samplePost, samplePost2] rfl
      (by decide) { likeUpdated samplePost with _rev := some "2-x" }⟩

/-! ## Sync-handler effects of the operations -/

theorem fetchDocuments_handlers (fail : Bool) (s : AppState) :
    (fetchDocuments fail s).handlers = s.handlers := by
  rcases h : s.localDb with _ | db <;> cases fail <;> simp [fetchDocuments, h]

theorem searchDocuments_handlers (rmatch : String → String → Bool)
    (fetchFail findFail : Bool) (s : AppState) :
    (searchDocuments rmatch fetchFail findFail s).handlers = s.handlers := by
  rcases h : s.localDb with _ | db
  · simp [searchDocuments, h]
  · by_cases hq : jsTrim s.searchQuery = "" <;> cases findFail <;>
      simp [searchDocuments, h, hq, fetchDocuments_handlers]

theorem generateMassData_handlers (nowMs : Nat → Nat) (nowIso : Nat → String)
    (rnds : Nat → ℚ) (freshRevs : Nat → String) (fail fetchFail : Bool)
    (s : AppState) : (generateMassData nowMs nowIso rnds freshRevs fail fetchFail s).handlers
      = s.handlers := by
  rcases h : s.localDb with _ | db <;> cases fail <;>
    simp [generateMassData, h]
  by_cases hq : s.searchQuery = "" <;>
    simp [hq, fetchDocuments_handlers]

theorem createNewPost_handlers (nowMs : Nat) (nowIso : String)
    (idxRandom likeRandom : ℚ) (freshRev : String) (fail fetchFail : Bool)
    (s : AppState) :
    (createNewPost nowMs nowIso idxRandom likeRandom freshRev fail fetchFail s).handlers
      = s.handlers := by
  rcases h : s.localDb with _ | db <;> cases fail <;>
    simp [createNewPost, h]
  by_cases hq : s.searchQuery = "" <;>
    simp [hq, fetchDocuments_handlers]

theorem likePost_handlers (post : Post) (freshRev : String) (fail : Bool)
    (s : AppState) : (likePost post freshRev fail s).handlers = s.handlers := by
  rcases h : s.localDb with _ | db <;> cases fail <;> simp [likePost, h]

theorem deletePost_handlers (post : Post) (fail : Bool) (s : AppState) :
    (deletePost post fail s).handlers = s.handlers := by
  rcases h : s.localDb with _ | db <;> cases fail <;> simp [deletePost, h]
  cases hr : dbRemove post._id post._rev db <;> simp [hr]

theorem startReplication_handlers (s : AppState) :
    (startReplication s).handlers = s.handlers ∨
    (startReplication s).handlers = freshSyncHandler :: cancelCurrent s.handlers := by
  rcases hl : s.localDb with _ | db <;> rcases hr : s.remoteDb with _ | u <;>
    simp [startReplication, hl, hr]

theorem initDatabase_handlers (localContent : List Post) (indexFail fetchFail : Bool)
    (s : AppState) :
    (initDatabase localContent indexFail fetchFail s).handlers = s.handlers ∨
    (initDatabase localContent indexFail fetchFail s).handlers =
      freshSyncHandler :: cancelCurrent s.handlers := by
  cases indexFail
  · right
    simp [initDatabase, fetchDocuments_handlers, startReplication]
  · left
    simp [initDatabase]

theorem toggleOffline_handlers (s : AppState) :
    (toggleOffline s).handlers = s.handlers ∨
    (toggleOffline s).handlers = freshSyncHandler :: cancelCurrent s.handlers ∨
    (toggleOffline s).handlers = cancelCurrent s.handlers := by
  cases ho : s.isOnline
  · rcases startReplication_handlers { s with isOnline := !s.isOnline } with h | h
    · left
      simpa [toggleOffline, ho] using h
    · right; left
      simpa [toggleOffline, ho] using h
  · right; right
    simp [toggleOffline, ho]

/-- Every operation either leaves the sync-handler history untouched, or
starts replication (cancelling the current handler and installing a fresh
one), or cancels the current handler: the application only ever starts and
cancels replication. -/
theorem applyOp_handlers (rmatch : String → String → Bool) (o : Op) (s : AppState) :
    (applyOp rmatch o s).handlers = s.handlers ∨
    (applyOp rmatch o s).handlers = freshSyncHandler :: cancelCurrent s.handlers ∨
    (applyOp rmatch o s).handlers = cancelCurrent s.handlers := by
  cases o with
  | init localContent indexFail fetchFail =>
    rcases initDatabase_handlers localContent indexFail fetchFail s with h | h
    · exact Or.inl h
    · exact Or.inr (Or.inl h)
  | massData nowMs nowIso rnds freshRevs fail fetchFail =>
    exact Or.inl (generateMassData_handlers nowMs nowIso rnds freshRevs fail fetchFail s)
  | create nowMs nowIso idxRandom likeRandom freshRev fail fetchFail =>
    exact Or.inl (createNewPost_handlers nowMs nowIso idxRandom likeRandom freshRev
      fail fetchFail s)
  | fetch fail => exact Or.inl (fetchDocuments_handlers fail s)
  | search fetchFail findFail =>
    exact Or.inl (searchDocuments_handlers rmatch fetchFail findFail s)
  | like post freshRev fail => exact Or.inl (likePost_handlers post freshRev fail s)
  | erase post fail => exact Or.inl (deletePost_handlers post fail s)
  | replicate =>
    rcases startReplication_handlers s with h | h
    · exact Or.inl h
    · exact Or.inr (Or.inl h)
  | toggle => exact toggleOffline_handlers s
  | setQuery q => exact Or.inl rfl

theorem cancelCurrent_all_inactive (hs : List SyncHandler) (h : OnlyHeadActive hs) :
    ∀ x ∈ cancelCurrent hs, x.active = false := by
  cases hs with
  | nil => intro x hx; cases hx
  | cons a t =>
    intro x hx
    rcases List.mem_cons.mp hx with hx | hx
    · rw [hx]
    · exact h x hx

theorem onlyHeadActive_cancelCurrent (hs : List SyncHandler) (h : OnlyHeadActive hs) :
    OnlyHeadActive (cancelCurrent hs) := by
  cases hs with
  | nil => intro x hx; cases hx
  | cons a t => exact h

theorem onlyHeadActive_start (hs : List SyncHandler) (h : OnlyHeadActive hs) :
    OnlyHeadActive (freshSyncHandler :: cancelCurrent hs) := by
  intro x hx
  exact cancelCurrent_all_inactive hs h x hx

theorem countP_active_le_one (hs : List SyncHandler) (h : OnlyHeadActive hs) :
    hs.countP (fun x => x.active) ≤ 1 := by
  cases hs with
  | nil => simp
  | cons a t =>
    have ht : t.countP (fun x => x.active) = 0 := by
      rw [List.countP_eq_zero]
      intro x hx
      simp [h x hx]
    rw [List.countP_cons, ht]
    split <;> simp

/-- C7: the application only starts and cancels replication and never holds
two active sync handlers: every operation preserves "only the current
handler may be active" (hence at most one active handler ever);
`startReplication` cancels the existing handler (if any) before installing
the new one; `toggleOffline` cancels the handler when switching to offline
and restarts replication when switching back to online. -/
theorem c7_replication_lifecycle (rmatch : String → String → Bool) (o : Op)
    (s : AppState) (h : OnlyHeadActive s.handlers) :
    OnlyHeadActive (applyOp rmatch o s).handlers ∧
    (applyOp rmatch o s).handlers.countP (fun x => x.active) ≤ 1 ∧
    ((applyOp rmatch o s).handlers = s.handlers ∨
      (applyOp rmatch o s).handlers = freshSyncHandler :: cancelCurrent s.handlers ∨
      (applyOp rmatch o s).handlers = cancelCurrent s.handlers) ∧
    (s.localDb.isSome = true → s.remoteDb.isSome = true →
      (startReplication s).handlers = freshSyncHandler :: cancelCurrent s.handlers) ∧
    (s.isOnline = true → toggleOffline s =
      { s with isOnline := false, handlers := cancelCurrent s.handlers }) ∧
    (s.isOnline = false → toggleOffline s = startReplication { s with isOnline := true }) := by
  have hpres : OnlyHeadActive (applyOp rmatch o s).handlers := by
    rcases applyOp_handlers rmatch o s with he | he | he <;> rw [he]
    · exact h
    · exact onlyHeadActive_start s.handlers h
    · exact onlyHeadActive_cancelCurrent s.handlers h
  refine ⟨hpres, countP_active_le_one _ hpres, applyOp_handlers rmatch o s, ?_, ?_, ?_⟩
  · intro hl hr
    obtain ⟨db, hdb⟩ := Option.isSome_iff_exists.mp hl
    obtain ⟨u, hu⟩ := Option.isSome_iff_exists.mp hr
    simp [startReplication, hdb, hu]
  · intro ho
    simp [toggleOffline, ho]
  · intro ho
    simp [toggleOffline, ho]

/-- Witness for C7: starting replication on the sample state (no handler
yet). -/
theorem c7_replication_lifecycle_witness :
    OnlyHeadActive sampleState.handlers ∧
    (OnlyHeadActive (applyOp sampleRmatch Op.replicate sampleState).handlers ∧
      (applyOp sampleRmatch Op.replicate sampleState).handlers.countP
        (fun x => x.active) ≤ 1 ∧
      ((applyOp sampleRmatch Op.replicate sampleState).handlers = sampleState.handlers ∨
        (applyOp sampleRmatch Op.replicate sampleState).handlers =
          freshSyncHandler :: cancelCurrent sampleState.handlers ∨
        (applyOp sampleRmatch Op.replicate sampleState).handlers =
          cancelCurrent sampleState.handlers) ∧
      (sampleState.localDb.isSome = true → sampleState.remoteDb.isSome = true →
        (startReplication sampleState).handlers =
          freshSyncHandler :: cancelCurrent sampleState.handlers) ∧
      (sampleState.isOnline = true → toggleOffline sampleState =
        { sampleState with isOnline := false, handlers := cancelCurrent sampleState.handlers }) ∧
      (sampleState.isOnline = false → toggleOffline sampleState =
        startReplication { sampleState with isOnline := true })) :=
  ⟨fun x hx => absurd hx (List.not_mem_nil x),
    c7_replication_lifecycle sampleRmatch Op.replicate sampleState
      (fun x hx => absurd hx (List.not_mem_nil x))⟩

theorem allBidir_cancelCurrent (hs : List SyncHandler) (h : AllBidirLiveRetry hs) :
    AllBidirLiveRetry (cancelCurrent hs) := by
  cases hs with
  | nil => intro x hx; cases hx
  | cons a t =>
    intro x hx
    rcases List.mem_cons.mp hx with hx | hx
    · have := h a (List.mem_cons_self a t)
      rw [hx]
      exact this
    · exact h x (List.mem_cons_of_mem a hx)

/-- C8: whenever replication is started — at initialisation and on every
switch back to online — the installed handler is the bidirectional
`PouchDB.sync` of the local and remote databases with `live: true` and
`retry: true`; consequently every handler ever created is such a handler,
an invariant every operation preserves. -/
theorem c8_sync_is_live_bidirectional (rmatch : String → String → Bool) (o : Op)
    (s : AppState) (h : AllBidirLiveRetry s.handlers) :
    AllBidirLiveRetry (applyOp rmatch o s).handlers ∧
    freshSyncHandler.mode = SyncMode.sync ∧ freshSyncHandler.live = true ∧
    freshSyncHandler.retry = true ∧
    (s.localDb.isSome = true → s.remoteDb.isSome = true →
      (startReplication s).handlers = freshSyncHandler :: cancelCurrent s.handlers) := by
  refine ⟨?_, rfl, rfl, rfl, ?_⟩
  · rcases applyOp_handlers rmatch o s with he | he | he <;> rw [he]
    · exact h
    · intro x hx
      rcases List.mem_cons.mp hx with hx | hx
      · rw [hx]
        exact ⟨rfl, rfl, rfl⟩
      · exact allBidir_cancelCurrent s.handlers h x hx
    · exact allBidir_cancelCurrent s.handlers h
  · intro hl hr
    obtain ⟨db, hdb⟩ := Option.isSome_iff_exists.mp hl
    obtain ⟨u, hu⟩ := Option.isSome_iff_exists.mp hr
    simp [startReplication, hdb, hu]

/-- Witness for C8: toggling the sample state twice keeps every created
handler live, retrying and bidirectional. -/
theorem c8_sync_is_live_bidirectional_witness :
    AllBidirLiveRetry sampleState.handlers ∧
    (AllBidirLiveRetry (applyOp sampleRmatch Op.toggle sampleState).handlers ∧
      freshSyncHandler.mode = SyncMode.sync ∧ freshSyncHandler.live = true ∧
      freshSyncHandler.retry = true ∧
      (sampleState.localDb.isSome = true → sampleState.remoteDb.isSome = true →
        (startReplication sampleState).handlers =
          freshSyncHandler :: cancelCurrent sampleState.handlers)) :=
  ⟨fun x hx => absurd hx (List.not_mem_nil x),
    c8_sync_is_live_bidirectional sampleRmatch Op.toggle sampleState
      (fun x hx => absurd hx (List.not_mem_nil x))⟩

/-! ## Preservation of the like-counter invariant -/

/-- The value `Math.floor(random * 100)` with `random ∈ [0, 1)` lies in `[0, 99]`. -/
theorem postFactory_likes_bounds (nowMs : Nat) (nowIso : String) (index : Nat)
    (random : ℚ) (h0 : 0 ≤ random) (h1 : random < 1) :
    0 ≤ (postFactory nowMs nowIso index random).likes ∧
      (postFactory nowMs nowIso index random).likes ≤ 99 := by
  constructor
  · exact Int.floor_nonneg.mpr (mul_nonneg h0 (by norm_num))
  · have hlt : random * 100 < ((100 : ℤ) : ℚ) := by
      push_cast
      nlinarith
    have h := Int.floor_lt.mpr hlt
    simp only [postFactory]
    omega

theorem dbPut_docsOk {doc : Post} {db : List Post} (freshRev : String)
    (hdoc : PostOk doc) (hdb : DocsOk db) : DocsOk (dbPut doc freshRev db) := by
  intro d hd
  rcases List.mem_append.mp hd with hd | hd
  · exact hdb d (List.mem_filter.mp hd).1
  · have he : d = { doc with _rev := some freshRev } := by simpa using hd
    rw [he]
    exact hdoc

theorem bulkDocs_docsOk (docs : List Post) (freshRevs : Nat → String) :
    ∀ (k : Nat) (db : List Post), DocsOk docs → DocsOk db →
      DocsOk (bulkDocs docs freshRevs k db) := by
  induction docs with
  | nil =>
    intro k db _ hdb
    exact hdb
  | cons p t ih =>
    intro k db hdocs hdb
    exact ih (k + 1) (dbPut p (freshRevs k) db)
      (fun q hq => hdocs q (List.mem_cons_of_mem p hq))
      (dbPut_docsOk (freshRevs k) (hdocs p (List.mem_cons_self p t)) hdb)

theorem massPosts_docsOk (nowMs : Nat → Nat) (nowIso : Nat → String) (rnds : Nat → ℚ)
    (hr : ∀ k, 0 ≤ rnds k ∧ rnds k < 1) : DocsOk (massPosts nowMs nowIso rnds) := by
  intro p hp
  simp only [massPosts, List.mem_map, List.mem_range] at hp
  obtain ⟨k, -, rfl⟩ := hp
  exact (postFactory_likes_bounds _ _ _ _ (hr (k + 1)).1 (hr (k + 1)).2).1

theorem optimisticReplace_mem (post updated : Post) (l : List Post) (d : Post)
    (hd : d ∈ optimisticReplace post updated l) : d ∈ l ∨ d = updated := by
  unfold optimisticReplace at hd
  split at hd
  · exact List.mem_or_eq_of_mem_set hd
  · exact Or.inl hd

theorem startReplication_documents (s : AppState) :
    (startReplication s).documents = s.documents := by
  rcases hl : s.localDb with _ | db <;> rcases hr : s.remoteDb with _ | u <;>
    simp [startReplication, hl, hr]

theorem startReplication_localDb (s : AppState) :
    (startReplication s).localDb = s.localDb := by
  rcases hl : s.localDb with _ | db <;> rcases hr : s.remoteDb with _ | u <;>
    simp [startReplication, hl, hr]

theorem stateOk_startReplication (s : AppState) (h : StateOk s) :
    StateOk (startReplication s) := by
  constructor
  · rw [startReplication_documents]
    exact h.1
  · intro db hdb
    rw [startReplication_localDb] at hdb
    exact h.2 db hdb

theorem stateOk_toggleOffline (s : AppState) (h : StateOk s) :
    StateOk (toggleOffline s) := by
  cases ho : s.isOnline
  · have e : toggleOffline s = startReplication { s with isOnline := true } := by
      simp [toggleOffline, ho]
    rw [e]
    exact stateOk_startReplication _ ⟨h.1, h.2⟩
  · have e : toggleOffline s =
        { s with isOnline := false, handlers := cancelCurrent s.handlers } := by
      simp [toggleOffline, ho]
    rw [e]
    exact ⟨h.1, h.2⟩

theorem stateOk_fetchDocuments (fail : Bool) (s : AppState) (h : StateOk s) :
    StateOk (fetchDocuments fail s) := by
  rcases hdb : s.localDb with _ | db
  · simpa [fetchDocuments, hdb] using h
  · cases fail
    · refine ⟨?_, ?_⟩
      · intro d hd
        simp [fetchDocuments, hdb, allDocsDescending, List.mem_filter,
          List.mem_mergeSort] at hd
        exact h.2 db hdb d hd.1
      · intro db2 hdb2
        simp [fetchDocuments, hdb] at hdb2
        exact hdb2 ▸ h.2 db hdb
    · simpa [fetchDocuments, hdb] using h

theorem stateOk_searchDocuments (rmatch : String → String → Bool)
    (fetchFail findFail : Bool) (s : AppState) (h : StateOk s) :
    StateOk (searchDocuments rmatch fetchFail findFail s) := by
  rcases hdb : s.localDb with _ | db
  · simpa [searchDocuments, hdb] using h
  · by_cases hq : jsTrim s.searchQuery = ""
    · have e : searchDocuments rmatch fetchFail findFail s = fetchDocuments fetchFail s := by
        simp [searchDocuments, hdb, hq]
      rw [e]
      exact stateOk_fetchDocuments fetchFail s h
    · cases findFail
      · refine ⟨?_, ?_⟩
        · intro d hd
          simp [searchDocuments, hdb, hq, mangoFind, List.mem_mergeSort,
            List.mem_filter] at hd
          exact h.2 db hdb d hd.1
        · intro db2 hdb2
          simp [searchDocuments, hdb, hq] at hdb2
          exact hdb2 ▸ h.2 db hdb
      · have e : searchDocuments rmatch fetchFail true s =
            { s with searchStatus := searchErrorMsg } := by
          simp [searchDocuments, hdb, hq]
        rw [e]
        exact ⟨h.1, h.2⟩

theorem stateOk_generateMassData (nowMs : Nat → Nat) (nowIso : Nat → String)
    (rnds : Nat → ℚ) (freshRevs : Nat → String) (fail fetchFail : Bool)
    (s : AppState) (hr : ∀ k, 0 ≤ rnds k ∧ rnds k < 1) (h : StateOk s) :
    StateOk (generateMassData nowMs nowIso rnds freshRevs fail fetchFail s) := by
  rcases hdb : s.localDb with _ | db
  · simpa [generateMassData, hdb] using h
  · cases fail
    · have h1 : StateOk { s with
          localDb := some (bulkDocs (massPosts nowMs nowIso rnds) freshRevs 0 db) } := by
        refine ⟨h.1, ?_⟩
        intro db2 hdb2
        have he := Option.some.inj hdb2
        exact he ▸ bulkDocs_docsOk (massPosts nowMs nowIso rnds) freshRevs 0 db
          (massPosts_docsOk nowMs nowIso rnds hr) (h.2 db hdb)
      have e : generateMassData nowMs nowIso rnds freshRevs false fetchFail s =
          if s.searchQuery = "" then
            fetchDocuments fetchFail { s with
              localDb := some (bulkDocs (massPosts nowMs nowIso rnds) freshRevs 0 db) }
          else { s with
            localDb := some (bulkDocs (massPosts nowMs nowIso rnds) freshRevs 0 db) } := by
        simp [generateMassData, hdb]
      rw [e]
      by_cases hq : s.searchQuery = ""
      · rw [if_pos hq]
        exact stateOk_fetchDocuments fetchFail _ h1
      · rw [if_neg hq]
        exact h1
    · simpa [generateMassData, hdb] using h

theorem stateOk_createNewPost (nowMs : Nat) (nowIso : String)
    (idxRandom likeRandom : ℚ) (freshRev : String) (fail fetchFail : Bool)
    (s : AppState) (hr : 0 ≤ likeRandom ∧ likeRandom < 1) (h : StateOk s) :
    StateOk (createNewPost nowMs nowIso idxRandom likeRandom freshRev fail fetchFail s) := by
  rcases hdb : s.localDb with _ | db
  · simpa [createNewPost, hdb] using h
  · cases fail
    · have hp : PostOk (postFactory nowMs nowIso ((⌊idxRandom * 1000⌋).toNat + 1) likeRandom) :=
        (postFactory_likes_bounds _ _ _ _ hr.1 hr.2).1
      have h1 : StateOk { s with
          localDb := some (dbPut (postFactory nowMs nowIso ((⌊idxRandom * 1000⌋).toNat + 1)
            likeRandom) freshRev db) } := by
        refine ⟨h.1, ?_⟩
        intro db2 hdb2
        have he := Option.some.inj hdb2
        exact he ▸ dbPut_docsOk freshRev hp (h.2 db hdb)
      have e : createNewPost nowMs nowIso idxRandom likeRandom freshRev false fetchFail s =
          if s.searchQuery = "" then
            fetchDocuments fetchFail { s with
              localDb := some (dbPut (postFactory nowMs nowIso
                ((⌊idxRandom * 1000⌋).toNat + 1) likeRandom) freshRev db) }
          else { s with
            localDb := some (dbPut (postFactory nowMs nowIso
              ((⌊idxRandom * 1000⌋).toNat + 1) likeRandom) freshRev db) } := by
        simp [createNewPost, hdb]
      rw [e]
      by_cases hq : s.searchQuery = ""
      · rw [if_pos hq]
        exact stateOk_fetchDocuments fetchFail _ h1
      · rw [if_neg hq]
        exact h1
    · simpa [createNewPost, hdb] using h

theorem stateOk_likePost (post : Post) (freshRev : String) (fail : Bool)
    (s : AppState) (hmem : post ∈ s.documents) (h : StateOk s) :
    StateOk (likePost post freshRev fail s) := by
  rcases hdb : s.localDb with _ | db
  · simpa [likePost, hdb] using h
  · cases fail
    · have hupd : PostOk (likeUpdated post) := by
        have := h.1 post hmem
        simp only [PostOk, likeUpdated] at *
        omega
      refine ⟨?_, ?_⟩
      · intro d hd
        simp [likePost, hdb] at hd
        rcases optimisticReplace_mem post (likeUpdated post) s.documents d hd with hd | hd
        · exact h.1 d hd
        · exact hd ▸ hupd
      · intro db2 hdb2
        simp [likePost, hdb] at hdb2
        exact hdb2 ▸ dbPut_docsOk freshRev hupd (h.2 db hdb)
    · simpa [likePost, hdb] using h

theorem stateOk_deletePost (post : Post) (fail : Bool) (s : AppState)
    (h : StateOk s) : StateOk (deletePost post fail s) := by
  rcases hdb : s.localDb with _ | db
  · simpa [deletePost, hdb] using h
  · cases fail
    · cases hr : dbRemove post._id post._rev db with
      | none => simpa [deletePost, hdb, hr] using h
      | some db2 =>
        have hsub : ∀ d ∈ db2, d ∈ db := by
          simp only [dbRemove] at hr
          split at hr
          · have he := Option.some.inj hr
            intro d hd
            rw [← he] at hd
            exact (List.mem_filter.mp hd).1
          · cases hr
        refine ⟨?_, ?_⟩
        · intro d hd
          simp [deletePost, hdb, hr] at hd
          exact h.1 d hd.1
        · intro db3 hdb3
          simp [deletePost, hdb, hr] at hdb3
          intro d hd
          rw [← hdb3] at hd
          exact h.2 db hdb d (hsub d hd)
    · simpa [deletePost, hdb] using h

theorem stateOk_initDatabase (localContent : List Post) (indexFail fetchFail : Bool)
    (s : AppState) (hlc : DocsOk localContent) (h : StateOk s) :
    StateOk (initDatabase localContent indexFail fetchFail s) := by
  have h1 : StateOk { s with remoteDb := some (), localDb := some localContent } := by
    refine ⟨h.1, ?_⟩
    intro db2 hdb2
    have he := Option.some.inj hdb2
    exact he ▸ hlc
  cases indexFail
  · have e : initDatabase localContent false fetchFail s =
        fetchDocuments fetchFail
          (startReplication { s with remoteDb := some (), localDb := some localContent }) := by
      simp [initDatabase]
    rw [e]
    exact stateOk_fetchDocuments fetchFail _ (stateOk_startReplication _ h1)
  · have e : initDatabase localContent true fetchFail s =
        { s with remoteDb := some (), localDb := some localContent, searchStatus := connectionErrorMsg } := by
      simp [initDatabase]
    rw [e]
    exact ⟨h1.1, h1.2⟩

/-- C1: every post the application ever writes has a non-negative like
counter: `postFactory` initialises `likes` to `Math.floor` of a random in
`[0, 100)`, hence a value in `[0, 99]`; `likePost` only ever increases
`likes` by 1; and every operation of the component preserves the invariant
that all displayed and all locally stored documents have `likes ≥ 0`. -/
theorem c1_likes_invariant (rmatch : String → String → Bool) (o : Op) (s : AppState)
    (hv : OpValid o s) (hs : StateOk s) (nowMs : Nat) (nowIso : String) (index : Nat)
    (random : ℚ) (h0 : 0 ≤ random) (h1 : random < 1) (p : Post) :
    StateOk (applyOp rmatch o s) ∧
    0 ≤ (postFactory nowMs nowIso index random).likes ∧
    (postFactory nowMs nowIso index random).likes ≤ 99 ∧
    (likeUpdated p).likes = p.likes + 1 ∧
    (0 ≤ p.likes → 0 ≤ (likeUpdated p).likes) := by
  refine ⟨?_, (postFactory_likes_bounds nowMs nowIso index random h0 h1).1,
    (postFactory_likes_bounds nowMs nowIso index random h0 h1).2, rfl, ?_⟩
  · cases o with
    | init localContent indexFail fetchFail =>
      exact stateOk_initDatabase localContent indexFail fetchFail s hv hs
    | massData nowMsF nowIsoF rndsF freshRevsF fail fetchFail =>
      exact stateOk_generateMassData nowMsF nowIsoF rndsF freshRevsF fail fetchFail s hv hs
    | create nowMs2 nowIso2 idxRandom likeRandom freshRev fail fetchFail =>
      exact stateOk_createNewPost nowMs2 nowIso2 idxRandom likeRandom freshRev
        fail fetchFail s hv hs
    | fetch fail => exact stateOk_fetchDocuments fail s hs
    | search fetchFail findFail => exact stateOk_searchDocuments rmatch fetchFail findFail s hs
    | like post freshRev fail => exact stateOk_likePost post freshRev fail s hv hs
    | erase post fail => exact stateOk_deletePost post fail s hs
    | replicate => exact stateOk_startReplication s hs
    | toggle => exact stateOk_toggleOffline s hs
    | setQuery q => exact ⟨hs.1, hs.2⟩
  · intro hp
    simp only [likeUpdated]
    omega

/-- Witness for C1: refreshing the sample state, whose documents all carry
non-negative like counters. -/
theorem c1_likes_invariant_witness :
    OpValid (Op.fetch false) sampleState ∧ StateOk sampleState ∧
    (0 : ℚ) ≤ 0 ∧ (0 : ℚ) < 1 ∧
    (StateOk (applyOp sampleRmatch (Op.fetch false) sampleState) ∧
      0 ≤ (postFactory 0 "" 1 0).likes ∧ (postFactory 0 "" 1 0).likes ≤ 99 ∧
      (likeUpdated samplePost).likes = samplePost.likes + 1 ∧
      (0 ≤ samplePost.likes → 0 ≤ (likeUpdated samplePost).likes)) := by
  have hok : StateOk sampleState := by
    constructor
    · intro d hd
      rcases List.mem_cons.mp hd with rfl | hd
      · exact (by decide : (0 : ℤ) ≤ 5)
      · cases hd
    · intro db hdb
      have he : [samplePost, samplePost2] = db := Option.some.inj hdb
      intro d hd
      rw [← he] at hd
      rcases List.mem_cons.mp hd with rfl | hd
      · exact (by decide : (0 : ℤ) ≤ 5)
      · rcases List.mem_cons.mp hd with rfl | hd
        · exact (by decide : (0 : ℤ) ≤ 7)
        · cases hd
  exact ⟨trivial, hok, by norm_num, by norm_num,
    c1_likes_invariant sampleRmatch (Op.fetch false) sampleState trivial hok
      0 "" 1 0 (by norm_num) (by norm_num) samplePost⟩

end InfraDon2
